import Mathlib

/-!
Verification of the Project-Finsaver financial dashboard.

This file shallowly embeds the computational core of the repository:
the runway forecasting engine `calculateForecast` from
`cfo-helper-enhanced/components/cfo-dashboard.tsx`, the budget-variance
classifier `getVarianceColor` from
`cfo-helper-enhanced/components/enhanced-features/budget-tracker.tsx`,
and the alert-simulation tick from
`cfo-helper-enhanced/components/enhanced-features/alerts-notifications.tsx`.

JavaScript numbers are modelled as rationals (`ℚ`); the single use of
`Number.POSITIVE_INFINITY` (the runway of a non-positive burn) is modelled
by `Option ℚ`, with `none` standing for positive infinity.
-/

namespace Finsaver

/-- A planned hire: `interface HeadcountRole` in `cfo-dashboard.tsx`.
`salary` and `startMonth` come from `Number.parseFloat` on text inputs,
so they are arbitrary rationals. -/
structure HeadcountRole where
  id : String
  role : String
  salary : ℚ
  startMonth : ℚ
  deriving Repr, DecidableEq

/-- The user-adjustable scenario parameters:
`interface FinancialInputs` in `cfo-dashboard.tsx`. -/
structure FinancialInputs where
  monthlySpend : ℚ
  oneTimeSpend : ℚ
  priceIncrease : ℚ
  deriving Repr, DecidableEq

/-- The fixed baseline snapshot closed over by `calculateForecast`
(the `initialData` object in `cfo-dashboard.tsx`).  The embedding takes it
as a parameter, matching the contract `project(baseline, inputs, headcount)`
of the specification; the source instantiates it with `initialData`. -/
structure InitialData where
  bankBalance : ℚ
  monthlyRevenue : ℚ
  monthlyCosts : ℚ
  deriving Repr, DecidableEq

/-- The concrete `initialData` constant of `cfo-dashboard.tsx`. -/
def initialData : InitialData :=
  { bankBalance := 5000000, monthlyRevenue := 800000, monthlyCosts := 1200000 }

/-- The record returned by `calculateForecast`.  `runway = none` stands for
`Number.POSITIVE_INFINITY`. -/
structure ForecastResult where
  runway : Option ℚ
  burn : ℚ
  forecastData : List ℚ
  deriving Repr, DecidableEq

/-- The salary sum of the roles active in a given month:
`localHeadcount.filter((r) => r.startMonth < month).reduce((sum, r) => sum + r.salary, 0)`
(lines 99-101 of `cfo-dashboard.tsx`).  The comparison is strict. -/
def monthlyHeadcountCost (hc : List HeadcountRole) (month : ℕ) : ℚ :=
  ((hc.filter fun r => r.startMonth < (month : ℚ)).map HeadcountRole.salary).sum

/-- The per-month burn of the forecast loop:
`initialData.monthlyCosts + params.monthlySpend + monthlyHeadcountCost - monthlyRevenue`
with `monthlyRevenue = initialData.monthlyRevenue * (1 + params.priceIncrease / 100)`
(lines 103-104 of `cfo-dashboard.tsx`). -/
def monthlyBurn (i : InitialData) (p : FinancialInputs) (hc : List HeadcountRole)
    (month : ℕ) : ℚ :=
  i.monthlyCosts + p.monthlySpend + monthlyHeadcountCost hc month
    - i.monthlyRevenue * (1 + p.priceIncrease / 100)

/-- The body of the loop `for (let month = 1; month < 25; month++)` of
`calculateForecast`: starting from the running `balance` at index `month - 1`,
produce the next `k` pushed entries.  Each iteration subtracts
`monthlyBurn` from the running balance and pushes `max 0 balance`
(lines 98-107 of `cfo-dashboard.tsx`). -/
def forecastTail (i : InitialData) (p : FinancialInputs) (hc : List HeadcountRole) :
    ℚ → ℕ → ℕ → List ℚ
  | _, _, 0 => []
  | balance, month, Nat.succ k =>
    let newBalance := balance - monthlyBurn i p hc month
    max 0 newBalance :: forecastTail i p hc newBalance (month + 1) k

/-- `calculateForecast` of `cfo-dashboard.tsx` (lines 93-119), with the
closed-over `initialData` baseline made an explicit parameter `i` and the
resolved headcount list (`params.headcount || headcount`) passed as `hc`.
The initial entry `currentBalance = bankBalance - oneTimeSpend` is pushed
unclamped; the 24 loop iterations push `Math.max(0, currentBalance)`.
`displayBurn` sums ALL salaries (`reduce` with no filter, line 109) and
`displayRunway` is the guarded division of lines 115-116, with
`Number.POSITIVE_INFINITY` rendered as `none`. -/
def calculateForecast (i : InitialData) (p : FinancialInputs)
    (hc : List HeadcountRole) : ForecastResult :=
  let currentBalance := i.bankBalance - p.oneTimeSpend
  let forecast := currentBalance :: forecastTail i p hc currentBalance 1 24
  let firstMonthHeadcount := (hc.map HeadcountRole.salary).sum
  let displayBurn := i.monthlyCosts + p.monthlySpend + firstMonthHeadcount
    - i.monthlyRevenue * (1 + p.priceIncrease / 100)
  let displayRunway : Option ℚ :=
    if 0 < displayBurn then some ((i.bankBalance - p.oneTimeSpend) / displayBurn)
    else none
  { runway := displayRunway, burn := displayBurn, forecastData := forecast }

/-- The unclamped running balance after `m` months, exactly the recurrence the
specification describes: month 0 is `bankBalance - oneTimeSpend`, and each
later month subtracts that month's `monthlyBurn`. -/
def balanceAfter (i : InitialData) (p : FinancialInputs) (hc : List HeadcountRole) :
    ℕ → ℚ
  | 0 => i.bankBalance - p.oneTimeSpend
  | Nat.succ m => balanceAfter i p hc m - monthlyBurn i p hc (m + 1)

/-- `getVarianceColor` of `budget-tracker.tsx` (lines 50-55): classifies the
variance `(actual - budgeted) / budgeted * 100` by color; red marks
over-budget, green under-budget, yellow on-track. -/
def getVarianceColor (budgeted actual : ℚ) : String :=
  let variance := (actual - budgeted) / budgeted * 100
  if variance > 10 then "text-red-500 dark:text-red-400"
  else if variance < -10 then "text-green-500 dark:text-green-400"
  else "text-yellow-500 dark:text-yellow-400"

/-- The alert condition union type of `alerts-notifications.tsx`:
`"below" | "above" | "equals"`. -/
inductive AlertCondition where
  | below
  | above
  | equals
  deriving Repr, DecidableEq

/-- The fields of `interface Alert` of `alerts-notifications.tsx` read or
written by the simulation tick (`id`, `title` and `description` are carried
along; `type`, `metric`, `createdAt` and `emailNotifications` are never read
by the tick and are omitted). -/
structure Alert where
  id : String
  title : String
  description : String
  threshold : ℚ
  currentValue : ℚ
  isActive : Bool
  condition : AlertCondition
  pushNotifications : Bool
  deriving Repr, DecidableEq

/-- The `thresholdCrossed` condition of the simulation tick
(lines 164-166 of `alerts-notifications.tsx`):
`(condition === "below" && newValue < threshold && currentValue >= threshold) ||
 (condition === "above" && newValue > threshold && currentValue <= threshold)`. -/
def thresholdCrossed (a : Alert) (newValue : ℚ) : Prop :=
  (a.condition = AlertCondition.below ∧ newValue < a.threshold
      ∧ a.threshold ≤ a.currentValue)
    ∨ (a.condition = AlertCondition.above ∧ a.threshold < newValue
      ∧ a.currentValue ≤ a.threshold)

instance (a : Alert) (newValue : ℚ) : Decidable (thresholdCrossed a newValue) := by
  unfold thresholdCrossed
  infer_instance

/-- The observable outcome of one simulation tick on one alert: the updated
alert record and whether `showNotification` was called for it. -/
structure TickResult where
  alert : Alert
  notificationSent : Bool
  deriving Repr, DecidableEq

/-- One iteration of the 5-second simulation tick of `alerts-notifications.tsx`
(lines 157-176) on a single alert.  The random factor
`(Math.random() - 0.5) * 0.1` is passed in as `variation`, and the source's
`newValue = currentValue * (1 + variation)` is written out inline.  When the
threshold is crossed and the alert is not yet active, a notification is sent
if `pushNotifications` is set and the alert becomes active; otherwise only
`currentValue` is updated. -/
def tickAlert (a : Alert) (variation : ℚ) : TickResult :=
  if thresholdCrossed a (a.currentValue * (1 + variation)) ∧ a.isActive = false then
    { alert := { a with currentValue := a.currentValue * (1 + variation),
                        isActive := true },
      notificationSent := a.pushNotifications }
  else
    { alert := { a with currentValue := a.currentValue * (1 + variation) },
      notificationSent := false }

/-- A concrete alert in the shape of the first seeded alert of
`alerts-notifications.tsx` (condition `below`), used as a test input. -/
def sampleAlert : Alert :=
  { id := "1", title := "Critical Cash Runway",
    description := "Cash runway below 3 months", threshold := 3,
    currentValue := 4, isActive := false,
    condition := AlertCondition.below, pushNotifications := true }

/-- A concrete alert whose condition is `equals`, used as a test input. -/
def sampleEqualsAlert : Alert :=
  { id := "2", title := "Revenue Milestone",
    description := "Revenue equals target", threshold := 100000,
    currentValue := 90000, isActive := false,
    condition := AlertCondition.equals, pushNotifications := true }

/-! ### Helper lemmas -/

/-- Unfolding equation for one loop iteration of `forecastTail`. -/
lemma forecastTail_succ (i : InitialData) (p : FinancialInputs)
    (hc : List HeadcountRole) (b : ℚ) (m k : ℕ) :
    forecastTail i p hc b m (k + 1)
      = max 0 (b - monthlyBurn i p hc m)
        :: forecastTail i p hc (b - monthlyBurn i p hc m) (m + 1) k := rfl

/-- `forecastTail` produces exactly `k` entries. -/
lemma forecastTail_length (i : InitialData) (p : FinancialInputs)
    (hc : List HeadcountRole) :
    ∀ (b : ℚ) (m k : ℕ), (forecastTail i p hc b m k).length = k := by
  intro b m k
  induction k generalizing b m with
  | zero => rfl
  | succ k ih => rw [forecastTail_succ, List.length_cons, ih]

/-- Base case of the running-balance recurrence. -/
lemma balanceAfter_zero (i : InitialData) (p : FinancialInputs)
    (hc : List HeadcountRole) :
    balanceAfter i p hc 0 = i.bankBalance - p.oneTimeSpend := rfl

/-- Step case of the running-balance recurrence. -/
lemma balanceAfter_succ (i : InitialData) (p : FinancialInputs)
    (hc : List HeadcountRole) (m : ℕ) :
    balanceAfter i p hc (m + 1)
      = balanceAfter i p hc m - monthlyBurn i p hc (m + 1) := rfl

/-- Entry `j` of the tail produced by the loop, started from the running
balance at month `m`, is the clamped balance after month `m + 1 + j`. -/
lemma forecastTail_getElem (i : InitialData) (p : FinancialInputs)
    (hc : List HeadcountRole) :
    ∀ (k m j : ℕ), j < k →
      (forecastTail i p hc (balanceAfter i p hc m) (m + 1) k)[j]?
        = some (max 0 (balanceAfter i p hc (m + 1 + j))) := by
  intro k
  induction k with
  | zero => intro m j hj; omega
  | succ k ih =>
    intro m j hj
    rw [forecastTail_succ, ← balanceAfter_succ]
    cases j with
    | zero => simp
    | succ j =>
      rw [List.getElem?_cons_succ]
      have h3 : m + 1 + (j + 1) = m + 1 + 1 + j := by omega
      rw [h3]
      exact ih (m + 1) j (by omega)

/-- The forecast series is the unclamped month-0 balance followed by the
24 loop entries. -/
lemma forecastData_eq (i : InitialData) (p : FinancialInputs)
    (hc : List HeadcountRole) :
    (calculateForecast i p hc).forecastData
      = (i.bankBalance - p.oneTimeSpend)
        :: forecastTail i p hc (i.bankBalance - p.oneTimeSpend) 1 24 := rfl

/-- The forecast series always has 25 entries. -/
lemma forecastData_length (i : InitialData) (p : FinancialInputs)
    (hc : List HeadcountRole) :
    (calculateForecast i p hc).forecastData.length = 25 := by
  rw [forecastData_eq, List.length_cons, forecastTail_length]

/-- Entry 0 of the forecast series is the unclamped initial balance. -/
lemma forecastData_getElem_zero (i : InitialData) (p : FinancialInputs)
    (hc : List HeadcountRole) :
    (calculateForecast i p hc).forecastData[0]?
      = some (i.bankBalance - p.oneTimeSpend) := rfl

/-- Entry `m + 1` of the forecast series (for `m + 1 ≤ 24`) is the clamped
balance after month `m + 1`. -/
lemma forecastData_getElem_succ (i : InitialData) (p : FinancialInputs)
    (hc : List HeadcountRole) (m : ℕ) (h : m < 24) :
    (calculateForecast i p hc).forecastData[m + 1]?
      = some (max 0 (balanceAfter i p hc (m + 1))) := by
  rw [forecastData_eq, List.getElem?_cons_succ]
  have h0 : (i.bankBalance - p.oneTimeSpend) = balanceAfter i p hc 0 := rfl
  rw [h0]
  have h4 := forecastTail_getElem i p hc 24 0 m h
  have h3 : 0 + 1 + m = m + 1 := by omega
  rw [h3] at h4
  simpa using h4

/-- With no headcount the active-roles cost vanishes. -/
lemma monthlyHeadcountCost_nil (m : ℕ) : monthlyHeadcountCost [] m = 0 := rfl

/-- Closed form of the running balance when all scenario inputs are zero and
there is no headcount: the balance drops by `monthlyCosts - monthlyRevenue`
every month. -/
lemma balanceAfter_zero_inputs (i : InitialData) :
    ∀ m : ℕ, balanceAfter i ⟨0, 0, 0⟩ [] m
      = i.bankBalance - m * (i.monthlyCosts - i.monthlyRevenue) := by
  intro m
  induction m with
  | zero => simp [balanceAfter_zero]
  | succ m ih =>
    rw [balanceAfter_succ, ih]
    simp [monthlyBurn, monthlyHeadcountCost_nil]
    ring

/-! ### Claim theorems -/

/-- Claim C1: for every inputs record and headcount list, `calculateForecast`
produces `forecastData` by the exact recurrence — the unclamped balance starts
at `bankBalance - oneTimeSpend`, each month `m` from 1 to 24 subtracts
`monthlyBurn m = monthlyCosts + monthlySpend + (sum of salary over roles with
startMonth < m) - monthlyRevenue * (1 + priceIncrease / 100)` from the
unclamped balance, and `forecastData[m] = max 0` of the balance after that
subtraction.  `balanceAfter` is exactly the claim's recurrence, restated by
the first two conjuncts. -/
theorem calculateForecast_recurrence (i : InitialData) (p : FinancialInputs)
    (hc : List HeadcountRole) (m : ℕ) (h1 : 1 ≤ m) (h2 : m ≤ 24) :
    balanceAfter i p hc 0 = i.bankBalance - p.oneTimeSpend ∧
    balanceAfter i p hc m = balanceAfter i p hc (m - 1) - monthlyBurn i p hc m ∧
    monthlyBurn i p hc m
      = i.monthlyCosts + p.monthlySpend
        + ((hc.filter fun r => r.startMonth < (m : ℚ)).map HeadcountRole.salary).sum
        - i.monthlyRevenue * (1 + p.priceIncrease / 100) ∧
    (calculateForecast i p hc).forecastData[m]?
      = some (max 0 (balanceAfter i p hc m)) := by
  obtain ⟨n, rfl⟩ : ∃ n, m = n + 1 := ⟨m - 1, by omega⟩
  exact ⟨rfl, rfl, rfl, forecastData_getElem_succ i p hc n (by omega)⟩

/-- Witness for C1 at the concrete baseline, zero inputs and empty headcount,
at month 1. -/
theorem calculateForecast_recurrence_witness :
    1 ≤ 1 ∧ (1 : ℕ) ≤ 24 ∧
    (calculateForecast initialData ⟨0, 0, 0⟩ []).forecastData[1]?
      = some (max 0 (balanceAfter initialData ⟨0, 0, 0⟩ [] 1)) :=
  ⟨le_refl 1, by norm_num,
    (calculateForecast_recurrence initialData ⟨0, 0, 0⟩ [] 1
      (le_refl 1) (by norm_num)).2.2.2⟩

/-- Counterexample to claim C2: with `oneTimeSpend = 6000000` exceeding the
bank balance, `forecastData[0]` is the unclamped value `-1000000`, not
`max 0 (bankBalance - oneTimeSpend) = 0`, and it is negative. -/
theorem forecastData_zero_clamped_cex :
    (calculateForecast initialData ⟨0, 6000000, 0⟩ []).forecastData[0]?
        = some ((-1000000 : ℚ))
      ∧ ¬ ((calculateForecast initialData ⟨0, 6000000, 0⟩ []).forecastData[0]?
        = some (max 0 (initialData.bankBalance - 6000000)))
      ∧ (-1000000 : ℚ) < 0 := by
  refine ⟨?_, ?_, by norm_num⟩
  · rw [forecastData_getElem_zero]
    norm_num [initialData]
  · rw [forecastData_getElem_zero]
    norm_num [initialData, max_def]

/-- Claim C2 as amended: `forecastData[0]` is the UNCLAMPED difference
`bankBalance - oneTimeSpend` (the source pushes `currentBalance` into the
array before the loop, without `Math.max`), so it is negative whenever
`oneTimeSpend` exceeds `bankBalance`. -/
theorem forecastData_zero_unclamped (i : InitialData) (p : FinancialInputs)
    (hc : List HeadcountRole) :
    (calculateForecast i p hc).forecastData[0]?
      = some (i.bankBalance - p.oneTimeSpend) := rfl

/-- Counterexample to claim C3: with `oneTimeSpend = 7000000` the month-0
entry of `forecastData` equals `-2000000 < 0`, so not every entry is ≥ 0. -/
theorem forecastData_nonneg_cex :
    (calculateForecast initialData ⟨0, 7000000, 0⟩ []).forecastData[0]?
        = some ((-2000000 : ℚ))
      ∧ (-2000000 : ℚ) < 0 := by
  refine ⟨?_, by norm_num⟩
  rw [forecastData_getElem_zero]
  norm_num [initialData]

/-- Claim C3 as amended: `forecastData` always has exactly 25 entries, and
every entry from month 1 on is ≥ 0; only the month-0 entry is unclamped. -/
theorem forecastData_length_tail_nonneg (i : InitialData) (p : FinancialInputs)
    (hc : List HeadcountRole) :
    (calculateForecast i p hc).forecastData.length = 25 ∧
    ∀ m a, 1 ≤ m → (calculateForecast i p hc).forecastData[m]? = some a
      → 0 ≤ a := by
  refine ⟨forecastData_length i p hc, ?_⟩
  intro m a h1 h2
  have hm25 : m < 25 := by
    by_contra hm
    have hnone : (calculateForecast i p hc).forecastData[m]? = none :=
      List.getElem?_eq_none (by rw [forecastData_length]; omega)
    rw [hnone] at h2
    cases h2
  obtain ⟨n, rfl⟩ : ∃ n, m = n + 1 := ⟨m - 1, by omega⟩
  rw [forecastData_getElem_succ i p hc n (by omega)] at h2
  have ha : a = max 0 (balanceAfter i p hc (n + 1)) := (Option.some_inj.mp h2).symm
  rw [ha]
  exact le_max_left _ _

/-- Witness for C3's amended statement: at the concrete baseline with zero
inputs the series has 25 entries, and entry 1 (which equals 4600000) is
non-negative. -/
theorem forecastData_length_tail_nonneg_witness :
    (calculateForecast initialData ⟨0, 0, 0⟩ []).forecastData.length = 25
      ∧ (0 : ℚ) ≤ 4600000 := by
  have hb := balanceAfter_zero_inputs initialData 1
  have h2 := forecastData_getElem_succ initialData ⟨0, 0, 0⟩ [] 0 (by norm_num)
  norm_num [initialData] at hb h2
  rw [hb] at h2
  norm_num [max_def] at h2
  exact ⟨(forecastData_length_tail_nonneg initialData ⟨0, 0, 0⟩ []).1,
    (forecastData_length_tail_nonneg initialData ⟨0, 0, 0⟩ []).2 1 4600000
      (le_refl 1) h2⟩

/-- Claim C4: a role's salary counts toward the burn of month `m` exactly
when `startMonth < m` (strict): consing a role onto the headcount adds its
salary to `monthlyBurn m` if `startMonth < m` and nothing otherwise; in
particular a role with `startMonth = 3` leaves month 3's burn (used for
`forecastData[3]`) unchanged and adds its salary to month 4's burn (used for
`forecastData[4]`). -/
theorem headcount_contributes_iff_started (i : InitialData)
    (p : FinancialInputs) (hc : List HeadcountRole) (r : HeadcountRole) :
    (∀ m : ℕ, monthlyBurn i p (r :: hc) m
      = monthlyBurn i p hc m + (if r.startMonth < (m : ℚ) then r.salary else 0))
    ∧ (r.startMonth = 3 →
        monthlyBurn i p (r :: hc) 3 = monthlyBurn i p hc 3
        ∧ monthlyBurn i p (r :: hc) 4 = monthlyBurn i p hc 4 + r.salary) := by
  have key : ∀ m : ℕ, monthlyBurn i p (r :: hc) m
      = monthlyBurn i p hc m
        + (if r.startMonth < (m : ℚ) then r.salary else 0) := by
    intro m
    unfold monthlyBurn monthlyHeadcountCost
    by_cases h : r.startMonth < (m : ℚ)
    · rw [if_pos h]
      simp [List.filter_cons, h]
      ring
    · rw [if_neg h]
      simp [List.filter_cons, h]
  refine ⟨key, fun h3 => ⟨?_, ?_⟩⟩
  · rw [key 3, h3]
    norm_num
  · rw [key 4, h3]
    norm_num

/-- Witness for C4: a concrete role with `startMonth = 3` does not change
month 3's burn and adds exactly its salary to month 4's burn. -/
theorem headcount_contributes_iff_started_witness :
    monthlyBurn initialData ⟨0, 0, 0⟩ [⟨"r1", "Engineer", 100000, 3⟩] 3
        = monthlyBurn initialData ⟨0, 0, 0⟩ [] 3
      ∧ monthlyBurn initialData ⟨0, 0, 0⟩ [⟨"r1", "Engineer", 100000, 3⟩] 4
        = monthlyBurn initialData ⟨0, 0, 0⟩ [] 4 + 100000 :=
  (headcount_contributes_iff_started initialData ⟨0, 0, 0⟩ []
    ⟨"r1", "Engineer", 100000, 3⟩).2 rfl

/-- Claim C5: the `burn` field of the result sums ALL headcount salaries,
with no `startMonth` filter — `burn = monthlyCosts + monthlySpend +
sum(all salaries) - monthlyRevenue * (1 + priceIncrease / 100)`. -/
theorem displayBurn_sums_all_salaries (i : InitialData) (p : FinancialInputs)
    (hc : List HeadcountRole) :
    (calculateForecast i p hc).burn
      = i.monthlyCosts + p.monthlySpend + (hc.map HeadcountRole.salary).sum
        - i.monthlyRevenue * (1 + p.priceIncrease / 100) := rfl

/-- Claim C6: the `runway` field is the guarded division — it equals
`(bankBalance - oneTimeSpend) / burn` when `burn > 0` and positive infinity
(modelled as `none`) when `burn ≤ 0`; `calculateForecast` is a total Lean
function, so no NaN or error can arise.  In particular, with no headcount
and a `priceIncrease` making the effective revenue exceed
`monthlyCosts + monthlySpend`, the runway is infinite. -/
theorem runway_guarded_division (i : InitialData) (p : FinancialInputs)
    (hc : List HeadcountRole) :
    (0 < (calculateForecast i p hc).burn →
      (calculateForecast i p hc).runway
        = some ((i.bankBalance - p.oneTimeSpend) / (calculateForecast i p hc).burn)) ∧
    ((calculateForecast i p hc).burn ≤ 0 →
      (calculateForecast i p hc).runway = none) ∧
    (hc = [] →
      i.monthlyCosts + p.monthlySpend < i.monthlyRevenue * (1 + p.priceIncrease / 100) →
      (calculateForecast i p hc).runway = none) := by
  have hrun : (calculateForecast i p hc).runway
      = if 0 < (calculateForecast i p hc).burn then
          some ((i.bankBalance - p.oneTimeSpend) / (calculateForecast i p hc).burn)
        else none := rfl
  refine ⟨fun h => ?_, fun h => ?_, fun hhc hrev => ?_⟩
  · rw [hrun, if_pos h]
  · rw [hrun, if_neg (not_lt.mpr h)]
  · subst hhc
    have hb : (calculateForecast i p []).burn ≤ 0 := by
      rw [displayBurn_sums_all_salaries]
      simp
      linarith
    rw [hrun, if_neg (not_lt.mpr hb)]

/-- Witness for C6 at the concrete baseline: with zero inputs the burn is
400000 > 0 and the runway is the finite quotient (12.5 months); with a 100%
price increase and no headcount the runway is infinite. -/
theorem runway_guarded_division_witness :
    (calculateForecast initialData ⟨0, 0, 0⟩ []).runway
        = some ((initialData.bankBalance - (0 : ℚ))
            / (calculateForecast initialData ⟨0, 0, 0⟩ []).burn)
      ∧ (calculateForecast initialData ⟨0, 0, 100⟩ []).runway = none :=
  ⟨(runway_guarded_division initialData ⟨0, 0, 0⟩ []).1
      (by rw [displayBurn_sums_all_salaries]; norm_num [initialData]),
    (runway_guarded_division initialData ⟨0, 0, 100⟩ []).2.2 rfl
      (by norm_num [initialData])⟩

/-- Claim C7: with zero scenario inputs, empty headcount, a non-negative
bank balance (the data-model constraint on `bankBalance`) and baseline costs
exceeding baseline revenue, the forecast series is non-increasing, and once
an entry is 0 every later entry is 0. -/
theorem forecast_nonincreasing_when_costs_exceed_revenue (i : InitialData)
    (hB : 0 ≤ i.bankBalance) (hcr : i.monthlyRevenue < i.monthlyCosts) :
    (∀ j a b, (calculateForecast i ⟨0, 0, 0⟩ []).forecastData[j]? = some a →
      (calculateForecast i ⟨0, 0, 0⟩ []).forecastData[j + 1]? = some b → b ≤ a) ∧
    (∀ j k, j ≤ k → k < 25 →
      (calculateForecast i ⟨0, 0, 0⟩ []).forecastData[j]? = some 0 →
      (calculateForecast i ⟨0, 0, 0⟩ []).forecastData[k]? = some 0) := by
  set d := i.monthlyCosts - i.monthlyRevenue with hd
  have hd0 : 0 < d := by rw [hd]; linarith
  have hform : ∀ m : ℕ, balanceAfter i ⟨0, 0, 0⟩ [] m = i.bankBalance - m * d :=
    balanceAfter_zero_inputs i
  have hmono : ∀ m n : ℕ, m ≤ n →
      i.bankBalance - (n : ℚ) * d ≤ i.bankBalance - (m : ℚ) * d := by
    intro m n hmn
    have : (m : ℚ) * d ≤ (n : ℚ) * d := by
      apply mul_le_mul_of_nonneg_right _ (le_of_lt hd0)
      exact_mod_cast hmn
    linarith
  constructor
  · intro j a b ha hb
    have hj1 : j + 1 < 25 := by
      by_contra hj
      have hnone : (calculateForecast i ⟨0, 0, 0⟩ []).forecastData[j + 1]? = none :=
        List.getElem?_eq_none (by rw [forecastData_length]; omega)
      rw [hnone] at hb
      cases hb
    have hbval : b = max 0 (balanceAfter i ⟨0, 0, 0⟩ [] (j + 1)) := by
      rw [forecastData_getElem_succ i ⟨0, 0, 0⟩ [] j (by omega)] at hb
      exact (Option.some_inj.mp hb).symm
    cases j with
    | zero =>
      have haval : a = i.bankBalance := by
        rw [forecastData_getElem_zero] at ha
        have := (Option.some_inj.mp ha).symm
        simpa using this
      rw [haval, hbval, hform 1]
      apply max_le hB
      have h01 : (0 : ℕ) ≤ 1 := by omega
      have := hmono 0 1 h01
      simpa using this
    | succ n =>
      have haval : a = max 0 (balanceAfter i ⟨0, 0, 0⟩ [] (n + 1)) := by
        rw [forecastData_getElem_succ i ⟨0, 0, 0⟩ [] n (by omega)] at ha
        exact (Option.some_inj.mp ha).symm
      rw [haval, hbval, hform (n + 1), hform (n + 1 + 1)]
      exact max_le_max (le_refl 0) (hmono (n + 1) (n + 1 + 1) (by omega))
  · intro j k hjk hk25 hj0
    have hkey : balanceAfter i ⟨0, 0, 0⟩ [] k ≤ 0 ∨ (k = 0 ∧ i.bankBalance = 0) := by
      cases j with
      | zero =>
        rw [forecastData_getElem_zero] at hj0
        have hB0 : i.bankBalance = 0 := by
          have := Option.some_inj.mp hj0
          simpa using this
        cases Nat.eq_zero_or_pos k with
        | inl h => exact Or.inr ⟨h, hB0⟩
        | inr h =>
          left
          rw [hform k, hB0]
          have : (0 : ℚ) ≤ (k : ℚ) * d := by positivity
          linarith
      | succ n =>
        left
        rw [forecastData_getElem_succ i ⟨0, 0, 0⟩ [] n (by omega)] at hj0
        have hmax : max 0 (balanceAfter i ⟨0, 0, 0⟩ [] (n + 1)) = 0 :=
          Option.some_inj.mp hj0
        have hle : balanceAfter i ⟨0, 0, 0⟩ [] (n + 1) ≤ 0 := by
          by_contra hpos
          push_neg at hpos
          rw [max_eq_right (le_of_lt hpos)] at hmax
          linarith
        rw [hform k]
        rw [hform (n + 1)] at hle
        have := hmono (n + 1) k hjk
        linarith
    rcases hkey with hle | ⟨rfl, hB0⟩
    · cases k with
      | zero =>
        rw [hform 0] at hle
        simp at hle
        have hB0 : i.bankBalance = 0 := le_antisymm hle hB
        rw [forecastData_getElem_zero]
        simp [hB0]
      | succ t =>
        rw [forecastData_getElem_succ i ⟨0, 0, 0⟩ [] t (by omega),
          max_eq_left hle]
    · rw [forecastData_getElem_zero, hB0]
      norm_num

/-- Witness for C7 at the concrete baseline (bank balance 5000000 ≥ 0 and
costs 1200000 > revenue 800000): entry 1 (4600000) is at most entry 0
(5000000). -/
theorem forecast_nonincreasing_witness : (4600000 : ℚ) ≤ 5000000 := by
  have h0 : (calculateForecast initialData ⟨0, 0, 0⟩ []).forecastData[0]?
      = some ((5000000 : ℚ)) := by
    rw [forecastData_getElem_zero]
    norm_num [initialData]
  have hb := balanceAfter_zero_inputs initialData 1
  have h1 := forecastData_getElem_succ initialData ⟨0, 0, 0⟩ [] 0 (by norm_num)
  norm_num [initialData] at hb h1
  rw [hb] at h1
  norm_num [max_def] at h1
  exact (forecast_nonincreasing_when_costs_exceed_revenue initialData
    (by norm_num [initialData]) (by norm_num [initialData])).1 0 5000000 4600000 h0 h1

/-- Claim C8: for `budgeted ≠ 0`, `getVarianceColor` computes
`variance = (actual - budgeted) / budgeted * 100` and returns the over-budget
color exactly when `variance > 10`, the under-budget color exactly when
`variance < -10`, and the on-track color otherwise — so the boundary values
10 and -10 are on-track. -/
theorem variance_thresholds (budgeted actual : ℚ) (_hbz : budgeted ≠ 0) :
    (getVarianceColor budgeted actual = "text-red-500 dark:text-red-400"
        ↔ 10 < (actual - budgeted) / budgeted * 100) ∧
    (getVarianceColor budgeted actual = "text-green-500 dark:text-green-400"
        ↔ (actual - budgeted) / budgeted * 100 < -10) ∧
    (getVarianceColor budgeted actual = "text-yellow-500 dark:text-yellow-400"
        ↔ (-10 ≤ (actual - budgeted) / budgeted * 100
            ∧ (actual - budgeted) / budgeted * 100 ≤ 10)) := by
  have hdef : getVarianceColor budgeted actual
      = if (actual - budgeted) / budgeted * 100 > 10 then
          "text-red-500 dark:text-red-400"
        else if (actual - budgeted) / budgeted * 100 < -10 then
          "text-green-500 dark:text-green-400"
        else "text-yellow-500 dark:text-yellow-400" := rfl
  rw [hdef]
  by_cases h1 : (actual - budgeted) / budgeted * 100 > 10
  · rw [if_pos h1]
    refine ⟨⟨fun _ => h1, fun _ => rfl⟩, ⟨fun he => ?_, fun hlt => ?_⟩,
      ⟨fun he => ?_, fun hy => ?_⟩⟩
    · exact absurd he (by decide)
    · exact absurd hlt (not_lt.mpr (by linarith))
    · exact absurd he (by decide)
    · exact absurd h1 (not_lt.mpr hy.2)
  · by_cases h2 : (actual - budgeted) / budgeted * 100 < -10
    · rw [if_neg h1, if_pos h2]
      refine ⟨⟨fun he => ?_, fun hgt => ?_⟩, ⟨fun _ => h2, fun _ => rfl⟩,
        ⟨fun he => ?_, fun hy => ?_⟩⟩
      · exact absurd he (by decide)
      · exact absurd hgt h1
      · exact absurd he (by decide)
      · exact absurd h2 (not_lt.mpr hy.1)
    · rw [if_neg h1, if_neg h2]
      push_neg at h1 h2
      refine ⟨⟨fun he => ?_, fun hgt => ?_⟩, ⟨fun he => ?_, fun hlt => ?_⟩,
        ⟨fun _ => ⟨h2, h1⟩, fun _ => rfl⟩⟩
      · exact absurd he (by decide)
      · exact absurd hgt (not_lt.mpr h1)
      · exact absurd he (by decide)
      · exact absurd hlt (not_lt.mpr h2)

/-- Witness for C8: a 50% overrun is classified over-budget, and the exact
boundary variance of +10% is classified on-track. -/
theorem variance_thresholds_witness :
    getVarianceColor 100 150 = "text-red-500 dark:text-red-400"
      ∧ getVarianceColor 100 110 = "text-yellow-500 dark:text-yellow-400" :=
  ⟨(variance_thresholds 100 150 (by norm_num)).1.mpr (by norm_num),
    (variance_thresholds 100 110 (by norm_num)).2.2.mpr
      (by constructor <;> norm_num)⟩

/-- Claim C9: on a simulation tick, an alert fires — sends a notification or
transitions from inactive to active — only when its value crosses the
threshold: for `below`, the previous value was ≥ the threshold and the new
value `currentValue * (1 + variation)` is < the threshold; for `above`, the
previous value was ≤ the threshold and the new value is > it.  Since the
crossing requires the previous value NOT to satisfy the condition, an alert
never fires merely because its condition already holds on that tick. -/
theorem alert_fires_only_on_crossing (a : Alert) (variation : ℚ) :
    ((tickAlert a variation).notificationSent = true
        ∨ ((tickAlert a variation).alert.isActive = true ∧ a.isActive = false)) →
    ((a.condition = AlertCondition.below
        ∧ a.threshold ≤ a.currentValue
        ∧ a.currentValue * (1 + variation) < a.threshold)
      ∨ (a.condition = AlertCondition.above
        ∧ a.currentValue ≤ a.threshold
        ∧ a.threshold < a.currentValue * (1 + variation))) := by
  intro hfire
  by_cases hcx : thresholdCrossed a (a.currentValue * (1 + variation))
      ∧ a.isActive = false
  · rcases hcx.1 with ⟨hb, hlt, hge⟩ | ⟨hb, hgt, hle⟩
    · exact Or.inl ⟨hb, hge, hlt⟩
    · exact Or.inr ⟨hb, hle, hgt⟩
  · exfalso
    have ht : tickAlert a variation
        = { alert := { a with currentValue := a.currentValue * (1 + variation) },
            notificationSent := false } := by
      unfold tickAlert
      rw [if_neg hcx]
    rw [ht] at hfire
    rcases hfire with hsent | ⟨hact, hina⟩
    · exact Bool.false_ne_true hsent
    · simp at hact
      rw [hact] at hina
      exact Bool.noConfusion hina

/-- Witness for C9: the sample `below` alert with threshold 3, previous
value 4 and variation -1/2 (new value 2) fires, and indeed crossed. -/
theorem alert_fires_only_on_crossing_witness :
    (sampleAlert.condition = AlertCondition.below
        ∧ sampleAlert.threshold ≤ sampleAlert.currentValue
        ∧ sampleAlert.currentValue * (1 + (-1/2 : ℚ)) < sampleAlert.threshold)
      ∨ (sampleAlert.condition = AlertCondition.above
        ∧ sampleAlert.currentValue ≤ sampleAlert.threshold
        ∧ sampleAlert.threshold < sampleAlert.currentValue * (1 + (-1/2 : ℚ))) :=
  alert_fires_only_on_crossing sampleAlert (-1/2) (Or.inl (by
    have hcx : thresholdCrossed sampleAlert
        (sampleAlert.currentValue * (1 + (-1/2 : ℚ)))
        ∧ sampleAlert.isActive = false := by
      refine ⟨Or.inl ⟨rfl, ?_, ?_⟩, rfl⟩
      · norm_num [sampleAlert]
      · norm_num [sampleAlert]
    unfold tickAlert
    rw [if_pos hcx]
    rfl))

/-- Claim C10: an alert whose condition is `equals` can never fire from the
simulation tick — `thresholdCrossed` only covers `below` and `above` — so the
tick sends no notification for it and leaves `isActive` untouched, updating
only `currentValue`, even though `equals` is an accepted condition at alert
creation (the `AlertCondition` type includes it). -/
theorem equals_condition_never_fires (a : Alert) (variation : ℚ)
    (h : a.condition = AlertCondition.equals) :
    (tickAlert a variation).notificationSent = false
      ∧ (tickAlert a variation).alert
        = { a with currentValue := a.currentValue * (1 + variation) } := by
  have hnc : ¬ (thresholdCrossed a (a.currentValue * (1 + variation))
      ∧ a.isActive = false) := by
    rintro ⟨hcx, -⟩
    rcases hcx with ⟨hb, -, -⟩ | ⟨hb, -, -⟩ <;> rw [h] at hb <;>
      exact AlertCondition.noConfusion hb
  have ht : tickAlert a variation
      = { alert := { a with currentValue := a.currentValue * (1 + variation) },
          notificationSent := false } := by
    unfold tickAlert
    rw [if_neg hnc]
  rw [ht]
  exact ⟨rfl, rfl⟩

/-- Witness for C10: the sample `equals` alert never fires on a tick; only
its current value is rescaled. -/
theorem equals_condition_never_fires_witness :
    (tickAlert sampleEqualsAlert 1).notificationSent = false
      ∧ (tickAlert sampleEqualsAlert 1).alert
        = { sampleEqualsAlert with
            currentValue := sampleEqualsAlert.currentValue * (1 + 1) } :=
  equals_condition_never_fires sampleEqualsAlert 1 rfl

end Finsaver
